import Mathlib

/-!
Shallow embedding of the retirement calculator
(`src/retirement_calculator_streamlit.py`).

All monetary amounts and rates are modelled as exact rationals (`ℚ`);
ages and year counts are natural numbers (claiming ages for the Social
Security multiplier are integers, since the source subtracts the full
retirement age from 70 there).  Every definition mirrors the source
function of the same name.
-/

attribute [local semireducible] Rat.add Rat.sub Rat.mul Rat.inv Rat.ofScientific

/-- IRS Uniform Lifetime table from the source (`RMD_TABLE`), a dict from
age to divisor, ages 73–90. -/
def RMD_TABLE : List (ℕ × ℚ) :=
  [(73, 265/10), (74, 255/10), (75, 246/10), (76, 237/10), (77, 229/10), (78, 220/10), (79, 211/10),
   (80, 202/10), (81, 194/10), (82, 185/10), (83, 177/10), (84, 168/10), (85, 160/10), (86, 152/10),
   (87, 144/10), (88, 137/10), (89, 129/10), (90, 122/10)]

/-- `calculate_account_growth`: iterate `balance = balance * (1 + rate/100) + contribution`
once per year, starting from the current balance. -/
def calculate_account_growth (current_balance : ℚ) (years : ℕ)
    (contribution : ℚ) (rate : ℚ) : ℚ :=
  (fun balance => balance * (1 + rate / 100) + contribution)^[years] current_balance

/-- `get_social_security_multiplier`. -/
def get_social_security_multiplier (claim_age : ℤ) (fra : ℤ) : ℚ :=
  if claim_age = 62 then (if fra = 67 then 70/100 else 75/100)
  else if claim_age = 65 then (if fra = 67 then 867/1000 else 933/1000)
  else if claim_age = fra then 1
  else if claim_age = 70 then
    1 + ((70 - fra : ℤ) : ℚ) * (8/100)
  else 1

/-- `get_pension_multiplier`. -/
def get_pension_multiplier (retirement_age : ℕ) : ℚ :=
  if retirement_age = 62 then 80/100
  else if retirement_age = 65 then 93/100
  else if 67 ≤ retirement_age then 1
  else 1

/-- `calculate_rmd`: 0 below age 73, else balance divided by the table
divisor, with `RMD_TABLE.get(age, 20.2)` defaulting to 20.2. -/
def calculate_rmd (balance : ℚ) (age : ℕ) : ℚ :=
  if age < 73 then 0
  else balance / ((RMD_TABLE.lookup age).getD (202/10))

/-- `calculate_medicare_costs`: 0 below 65; else Part B plus the IRMAA
surcharge tier (elif chain, highest threshold first), plus Part D and a
fixed out-of-pocket estimate. -/
def calculate_medicare_costs (age : ℕ) (gross_income : ℚ) : ℚ :=
  if age < 65 then 0
  else
    let part_b : ℚ := 1747/10 * 12
    let part_b : ℚ :=
      if gross_income > 500000 then part_b + 4193/10 * 12
      else if gross_income > 395000 then part_b + 3499/10 * 12
      else if gross_income > 296000 then part_b + 2805/10 * 12
      else if gross_income > 197000 then part_b + 2099/10 * 12
      else if gross_income > 103000 then part_b + 699/10 * 12
      else part_b
    let part_d : ℚ := 55 * 12
    let out_of_pocket : ℚ := 2000
    part_b + part_d + out_of_pocket

/-- The IRMAA surcharge selected by the elif chain of
`calculate_medicare_costs` (the amount added to the base Part B premium). -/
def medicareSurcharge (gross_income : ℚ) : ℚ :=
  if gross_income > 500000 then 4193/10 * 12
  else if gross_income > 395000 then 3499/10 * 12
  else if gross_income > 296000 then 2805/10 * 12
  else if gross_income > 197000 then 2099/10 * 12
  else if gross_income > 103000 then 699/10 * 12
  else 0

/-- The five IRMAA income thresholds, in increasing order. -/
def medicareThresholds : List ℚ := [103000, 197000, 296000, 395000, 500000]

/-- `get_standard_deduction`: 14600, plus 1950 from age 65. -/
def get_standard_deduction (age : ℕ) : ℚ :=
  if 65 ≤ age then 14600 + 1950 else 14600

/-- Result record of `calculate_taxes` (the source returns a dict with
exactly these keys). -/
structure TaxResult where
  standard_deduction : ℚ
  adjusted_gross_income : ℚ
  total_tax : ℚ
  capital_gains_tax : ℚ
  effective_rate : ℚ
  deriving DecidableEq

/-- `calculate_taxes`. -/
def calculate_taxes (withdrawal_401k withdrawal_trad_ira withdrawal_taxable
    pension_income ss_income : ℚ) (age : ℕ) (federal_rate state_rate : ℚ) : TaxResult :=
  let federal := federal_rate / 100
  let state := state_rate / 100
  let total_withdrawals := withdrawal_401k + withdrawal_trad_ira
  let taxable_gains := withdrawal_taxable * (5/10) * (15/100)
  let combined_income := total_withdrawals + pension_income + ss_income * (5/10)
      + withdrawal_taxable * (5/10)
  let ss_taxable_percent : ℚ :=
    if combined_income > 34000 then 85/100
    else if combined_income > 25000 then 50/100
    else 0
  let taxable_ss := ss_income * ss_taxable_percent
  let total_taxable_income := total_withdrawals + pension_income + taxable_ss
  let standard_deduction := get_standard_deduction age
  let adjusted_gross_income := max 0 (total_taxable_income - standard_deduction)
  let federal_tax := adjusted_gross_income * federal
  let state_tax := adjusted_gross_income * state
  let total_tax := federal_tax + state_tax + taxable_gains
  { standard_deduction := standard_deduction
    adjusted_gross_income := adjusted_gross_income
    total_tax := total_tax
    capital_gains_tax := taxable_gains
    effective_rate :=
      if total_withdrawals + withdrawal_taxable + pension_income + ss_income > 0 then
        total_tax / (total_withdrawals + withdrawal_taxable + pension_income + ss_income)
      else 0 }

/-- Initial Medicare estimate of `calculate_needed_withdrawal`: gross income is
proxied by pension + SS + expenses; 0 when Medicare is excluded or age < 65. -/
def medicareEstimate0 (annual_expenses pension_annual ss_annual : ℚ) (age : ℕ)
    (include_medicare : Bool) : ℚ :=
  if include_medicare ∧ 65 ≤ age then
    calculate_medicare_costs age (pension_annual + ss_annual + annual_expenses)
  else 0

/-- The solver's initial gap: expenses + Medicare estimate − guaranteed income. -/
def initialGap (annual_expenses pension_annual ss_annual : ℚ) (age : ℕ)
    (include_medicare : Bool) : ℚ :=
  annual_expenses + medicareEstimate0 annual_expenses pension_annual ss_annual age include_medicare
    - (pension_annual + ss_annual)

/-- Tax charged on a candidate withdrawal split 60/20/20 across
(401k, traditional IRA, taxable), as computed inside the solver loop. -/
def loopTax (pension_annual ss_annual : ℚ) (age : ℕ) (federal_rate state_rate : ℚ)
    (est : ℚ) : ℚ :=
  (calculate_taxes (est * (6/10)) (est * (2/10)) (est * (2/10)) pension_annual ss_annual
    age federal_rate state_rate).total_tax

/-- The solver's fixed-point loop (`for iteration in range(10)`), with explicit
fuel: compute `total_need = gap + tax(est)`; stop when `|total_need − est| < 50`,
else continue from `total_need`. -/
def solverLoop (gap pension_annual ss_annual : ℚ) (age : ℕ)
    (federal_rate state_rate : ℚ) : ℕ → ℚ → ℚ
  | 0, est => est
  | n + 1, est =>
    let total_need := gap + loopTax pension_annual ss_annual age federal_rate state_rate est
    if |total_need - est| < 50 then est
    else solverLoop gap pension_annual ss_annual age federal_rate state_rate n total_need

/-- The estimate the loop ends with: 10 iterations of fuel, started at the gap. -/
def convergedEstimate (annual_expenses pension_annual ss_annual : ℚ) (age : ℕ)
    (federal_rate state_rate : ℚ) (include_medicare : Bool) : ℚ :=
  solverLoop (initialGap annual_expenses pension_annual ss_annual age include_medicare)
    pension_annual ss_annual age federal_rate state_rate 10
    (initialGap annual_expenses pension_annual ss_annual age include_medicare)

/-- `calculate_needed_withdrawal`, returning
(withdrawal_needed, medicare_costs, taxes). -/
def calculate_needed_withdrawal (annual_expenses pension_annual ss_annual : ℚ) (age : ℕ)
    (federal_rate state_rate : ℚ) (include_medicare : Bool) (total_balance : ℚ) :
    ℚ × ℚ × ℚ :=
  let medicare_costs :=
    medicareEstimate0 annual_expenses pension_annual ss_annual age include_medicare
  let gap := initialGap annual_expenses pension_annual ss_annual age include_medicare
  if gap ≤ 0 then
    let rmd := calculate_rmd total_balance age
    if rmd > 0 then
      let medicare_costs :=
        if include_medicare ∧ 65 ≤ age then
          calculate_medicare_costs age (rmd + pension_annual + ss_annual)
        else medicare_costs
      let taxes := calculate_taxes (rmd * (6/10)) (rmd * (2/10)) (rmd * (2/10))
        pension_annual ss_annual age federal_rate state_rate
      (rmd, medicare_costs, taxes.total_tax)
    else (0, medicare_costs, 0)
  else
    let estimated_withdrawal :=
      solverLoop gap pension_annual ss_annual age federal_rate state_rate 10 gap
    let rmd := calculate_rmd total_balance age
    let final_withdrawal := max estimated_withdrawal rmd
    let final_taxes := calculate_taxes (final_withdrawal * (6/10)) (final_withdrawal * (2/10))
      (final_withdrawal * (2/10)) pension_annual ss_annual age federal_rate state_rate
    let medicare_costs :=
      if include_medicare ∧ 65 ≤ age then
        calculate_medicare_costs age (final_withdrawal + pension_annual + ss_annual)
      else medicare_costs
    (final_withdrawal, medicare_costs, final_taxes.total_tax)

/-- `calculate_retirement_expenses`: monthly expenses inflated to retirement and
scaled by the retirement expense percentage. -/
def calculate_retirement_expenses (current_monthly_expenses : ℚ)
    (retirement_age current_age : ℕ) (expense_percentage inflation_rate : ℚ) : ℚ :=
  current_monthly_expenses * (1 + inflation_rate / 100) ^ (retirement_age - current_age)
    * (expense_percentage / 100)

/-- Loop-invariant parameters of `generate_amortization_schedule`. -/
structure AmortParams where
  return_rate : ℚ
  federal_rate : ℚ
  state_rate : ℚ
  inflation_rate : ℚ
  include_medicare : Bool
  retirement_age : ℕ
  deriving DecidableEq

/-- Per-year mutable state of `generate_amortization_schedule`: the four account
balances plus the inflation-indexed pension, Social Security and expenses. -/
structure AmortState where
  balance_401k : ℚ
  balance_trad_ira : ℚ
  balance_roth_ira : ℚ
  balance_taxable : ℚ
  adjusted_pension : ℚ
  adjusted_ss : ℚ
  annual_expenses : ℚ
  deriving DecidableEq

/-- `total_balance = balance_401k + balance_trad_ira + balance_roth_ira + balance_taxable`. -/
def totalBalance (s : AmortState) : ℚ :=
  s.balance_401k + s.balance_trad_ira + s.balance_roth_ira + s.balance_taxable

/-- One row of the schedule (the dict appended each year; `RMD Required` is the
truth of `rmd_required > 0`, stored as `'Yes'`/`'No'` in the source). -/
structure YearEntry where
  year : ℕ
  age : ℕ
  total_start : ℚ
  total_growth : ℚ
  needed_withdrawal : ℚ
  four_percent : ℚ
  savings_vs_4pct : ℚ
  rmd_required : Bool
  pension : ℚ
  social_security : ℚ
  gross_income : ℚ
  taxes : ℚ
  medicare : ℚ
  net_income : ℚ
  annual_expenses : ℚ
  surplus_shortfall : ℚ
  total_end : ℚ
  deriving DecidableEq

/-- The four per-account withdrawals of one simulated year: the needed
withdrawal allocated in proportion to each account's share of the total
balance, then capped at that account's balance + growth. -/
def cappedWithdrawals (p : AmortParams) (year : ℕ) (s : AmortState) : ℚ × ℚ × ℚ × ℚ :=
  let annual_return := p.return_rate / 100
  let total_balance := totalBalance s
  let current_age := p.retirement_age + year - 1
  let needed_withdrawal :=
    (calculate_needed_withdrawal s.annual_expenses s.adjusted_pension s.adjusted_ss
      current_age p.federal_rate p.state_rate p.include_medicare total_balance).1
  let withdrawal_401k :=
    if total_balance > 0 then needed_withdrawal * (s.balance_401k / total_balance) else 0
  let withdrawal_trad_ira :=
    if total_balance > 0 then needed_withdrawal * (s.balance_trad_ira / total_balance) else 0
  let withdrawal_roth :=
    if total_balance > 0 then needed_withdrawal * (s.balance_roth_ira / total_balance) else 0
  let withdrawal_taxable_acct :=
    if total_balance > 0 then needed_withdrawal * (s.balance_taxable / total_balance) else 0
  (min withdrawal_401k (s.balance_401k + s.balance_401k * annual_return),
   min withdrawal_trad_ira (s.balance_trad_ira + s.balance_trad_ira * annual_return),
   min withdrawal_roth (s.balance_roth_ira + s.balance_roth_ira * annual_return),
   min withdrawal_taxable_acct (s.balance_taxable + s.balance_taxable * annual_return))

/-- The body of the per-year loop of `generate_amortization_schedule`: produces
the recorded row and the updated state for the next year. -/
def amortYear (p : AmortParams) (year : ℕ) (s : AmortState) : YearEntry × AmortState :=
  let annual_return := p.return_rate / 100
  let inflation := p.inflation_rate / 100
  let total_balance := totalBalance s
  let current_age := p.retirement_age + year - 1
  let growth_401k := s.balance_401k * annual_return
  let growth_trad_ira := s.balance_trad_ira * annual_return
  let growth_roth_ira := s.balance_roth_ira * annual_return
  let growth_taxable := s.balance_taxable * annual_return
  let total_growth := growth_401k + growth_trad_ira + growth_roth_ira + growth_taxable
  let nmt := calculate_needed_withdrawal s.annual_expenses s.adjusted_pension s.adjusted_ss
    current_age p.federal_rate p.state_rate p.include_medicare total_balance
  let needed_withdrawal := nmt.1
  let medicare_costs := nmt.2.1
  let taxes := nmt.2.2
  let four_percent_withdrawal := total_balance * (4/100)
  let w := cappedWithdrawals p year s
  let withdrawal_401k := w.1
  let withdrawal_trad_ira := w.2.1
  let withdrawal_roth := w.2.2.1
  let withdrawal_taxable_acct := w.2.2.2
  let total_withdrawal :=
    withdrawal_401k + withdrawal_trad_ira + withdrawal_roth + withdrawal_taxable_acct
  let end_401k := max 0 (s.balance_401k + growth_401k - withdrawal_401k)
  let end_trad_ira := max 0 (s.balance_trad_ira + growth_trad_ira - withdrawal_trad_ira)
  let end_roth_ira := max 0 (s.balance_roth_ira + growth_roth_ira - withdrawal_roth)
  let end_taxable := max 0 (s.balance_taxable + growth_taxable - withdrawal_taxable_acct)
  let total_end := end_401k + end_trad_ira + end_roth_ira + end_taxable
  let gross_income := total_withdrawal + s.adjusted_pension + s.adjusted_ss
  let net_income := gross_income - taxes - medicare_costs
  let surplus_shortfall := net_income - s.annual_expenses
  let rmd_required := calculate_rmd total_balance current_age
  let savings_vs_4pct := four_percent_withdrawal - needed_withdrawal
  ({ year := year
     age := current_age
     total_start := total_balance
     total_growth := total_growth
     needed_withdrawal := needed_withdrawal
     four_percent := four_percent_withdrawal
     savings_vs_4pct := savings_vs_4pct
     rmd_required := decide (rmd_required > 0)
     pension := s.adjusted_pension
     social_security := s.adjusted_ss
     gross_income := gross_income
     taxes := taxes
     medicare := medicare_costs
     net_income := net_income
     annual_expenses := s.annual_expenses
     surplus_shortfall := surplus_shortfall
     total_end := total_end },
   { balance_401k := end_401k
     balance_trad_ira := end_trad_ira
     balance_roth_ira := end_roth_ira
     balance_taxable := end_taxable
     adjusted_pension := s.adjusted_pension * (1 + inflation)
     adjusted_ss := s.adjusted_ss * (1 + inflation)
     annual_expenses := s.annual_expenses * (1 + inflation) })

/-- The year loop `for year in range(1, years + 1)` with its early exit when the
total balance is ≤ 0; `n` is the remaining number of years. -/
def amortAux (p : AmortParams) : ℕ → ℕ → AmortState → List YearEntry
  | 0, _, _ => []
  | n + 1, year, s =>
    if totalBalance s ≤ 0 then []
    else (amortYear p year s).1 :: amortAux p n (year + 1) (amortYear p year s).2

/-- `generate_amortization_schedule` (pension/SS/expenses parameters are
monthly and are annualized on entry, as in the source). -/
def generate_amortization_schedule (starting_401k starting_trad_ira starting_roth_ira
    starting_taxable return_rate pension_income ss_income : ℚ) (retirement_age : ℕ)
    (federal_rate state_rate inflation_rate : ℚ) (include_medicare : Bool)
    (monthly_expenses : ℚ) (years : ℕ) : List YearEntry :=
  amortAux
    { return_rate := return_rate
      federal_rate := federal_rate
      state_rate := state_rate
      inflation_rate := inflation_rate
      include_medicare := include_medicare
      retirement_age := retirement_age }
    years 1
    { balance_401k := starting_401k
      balance_trad_ira := starting_trad_ira
      balance_roth_ira := starting_roth_ira
      balance_taxable := starting_taxable
      adjusted_pension := pension_income * 12
      adjusted_ss := ss_income * 12
      annual_expenses := monthly_expenses * 12 }

/-! ## Basic lemmas -/

/-- Ages above the table's maximum (90) miss every key of `RMD_TABLE`. -/
theorem rmd_lookup_none (age : ℕ) (h : 90 < age) : RMD_TABLE.lookup age = none := by
  have hb : ∀ k : ℕ, k ≤ 90 → (age == k) = false := by
    intro k hk
    rw [beq_eq_false_iff_ne]
    omega
  simp [RMD_TABLE, List.lookup, hb]

/-! ## Claim theorems -/

/-- C2 (amended): for every balance and every age strictly above the table's
maximum tabulated age 90, `calculate_rmd` divides by the fixed default divisor
20.2 (the age-80 entry), not by the table's last entry (12.2, the age-90
divisor). -/
theorem rmd_flat_default_above_table (b : ℚ) (age : ℕ) (h : 90 < age) :
    calculate_rmd b age = b / (202/10) := by
  rw [calculate_rmd, if_neg (by omega : ¬ age < 73), rmd_lookup_none age h]
  rfl

/-- C2 counterexample: at age 91 the computed RMD is not the balance divided by
the table's last entry (the divisor defined for age 90), refuting the claim
that ages above the table extrapolate the last entry flat. -/
theorem rmd_above_table_counterexample :
    calculate_rmd 100 91 ≠ 100 / ((RMD_TABLE.lookup 90).getD (202/10)) := by decide

/-- C2 witness: the amended statement instantiated at balance 100, age 91. -/
theorem rmd_flat_default_above_table_witness :
    90 < 91 ∧ calculate_rmd 100 91 = 100 / (202/10) :=
  ⟨by decide, rmd_flat_default_above_table 100 91 (by decide)⟩

/-- C7: for non-negative withdrawals, pension, Social Security and tax rates,
`calculate_taxes` returns a non-negative total tax (the function is total by
construction: every branch of the embedding is a defined rational). -/
theorem taxes_total_nonneg (w1 w2 w3 p ss : ℚ) (age : ℕ) (fed st : ℚ)
    (_h1 : 0 ≤ w1) (_h2 : 0 ≤ w2) (h3 : 0 ≤ w3) (_hp : 0 ≤ p) (_hss : 0 ≤ ss)
    (hfed : 0 ≤ fed) (hst : 0 ≤ st) :
    0 ≤ (calculate_taxes w1 w2 w3 p ss age fed st).total_tax := by
  simp only [calculate_taxes]
  refine add_nonneg (add_nonneg ?_ ?_) (by positivity)
  · exact mul_nonneg (le_max_left _ _) (by positivity)
  · exact mul_nonneg (le_max_left _ _) (by positivity)

/-- C7 witness: non-negativity at a concrete input. -/
theorem taxes_total_nonneg_witness :
    0 ≤ (calculate_taxes 30000 10000 10000 12000 24000 67 22 5).total_tax :=
  taxes_total_nonneg 30000 10000 10000 12000 24000 67 22 5
    (by decide) (by decide) (by decide) (by decide) (by decide) (by decide) (by decide)

/-- C8: zero years of growth return the balance unchanged, and each further
year multiplies the previous result by (1 + rate/100) and then adds the
contribution (growth first, contribution at year end). -/
theorem account_growth_recurrence :
    (∀ (B C R : ℚ), calculate_account_growth B 0 C R = B) ∧
    (∀ (B : ℚ) (n : ℕ) (C R : ℚ),
      calculate_account_growth B (n + 1) C R
        = calculate_account_growth B n C R * (1 + R / 100) + C) := by
  constructor
  · intro B C R
    rfl
  · intro B n C R
    simp only [calculate_account_growth, Function.iterate_succ_apply']

/-- C9: the Social Security multiplier is 0.70 at (62, FRA 67), 1.24 at
(70, FRA 67), 1.0 at the FRA itself, and 1.0 at every claiming age other than
62, 65, the FRA and 70 (for FRA 66 or 67). -/
theorem ss_multiplier_values :
    get_social_security_multiplier 62 67 = 70/100 ∧
    get_social_security_multiplier 70 67 = 124/100 ∧
    get_social_security_multiplier 67 67 = 1 ∧
    ∀ (claim_age fra : ℤ), (fra = 66 ∨ fra = 67) →
      claim_age ≠ 62 → claim_age ≠ 65 → claim_age ≠ fra → claim_age ≠ 70 →
      get_social_security_multiplier claim_age fra = 1 := by
  refine ⟨by decide, by decide, by decide, ?_⟩
  intro claim_age fra _ h62 h65 hfra h70
  rw [get_social_security_multiplier, if_neg h62, if_neg h65, if_neg hfra, if_neg h70]

/-- C9 witness: a claiming age in the fall-through range (63 with FRA 67)
yields the default multiplier 1.0. -/
theorem ss_multiplier_values_witness :
    get_social_security_multiplier 63 67 = 1 :=
  ss_multiplier_values.2.2.2 63 67 (Or.inr rfl) (by decide) (by decide) (by decide) (by decide)

/-- From age 65 the Medicare cost splits into the fixed base premiums plus the
IRMAA surcharge of the matching income tier. -/
theorem medicare_costs_eq (age : ℕ) (h : 65 ≤ age) (g : ℚ) :
    calculate_medicare_costs age g
      = 1747/10 * 12 + medicareSurcharge g + 55 * 12 + 2000 := by
  simp only [calculate_medicare_costs, medicareSurcharge]
  rw [if_neg (by omega : ¬ age < 65)]
  split_ifs <;> ring

/-- The IRMAA surcharge is non-decreasing in gross income. -/
theorem medicareSurcharge_mono {x y : ℚ} (h : x ≤ y) :
    medicareSurcharge x ≤ medicareSurcharge y := by
  unfold medicareSurcharge
  split_ifs <;> linarith

/-- The IRMAA surcharge strictly increases across each threshold. -/
theorem medicareSurcharge_jump {t : ℚ} (ht : t ∈ medicareThresholds) {x y : ℚ}
    (hx : x ≤ t) (hy : t < y) : medicareSurcharge x < medicareSurcharge y := by
  fin_cases ht <;>
    (unfold medicareSurcharge; split_ifs <;> linarith)

/-- The IRMAA surcharge is constant on any interval containing no threshold. -/
theorem medicareSurcharge_const {x y : ℚ} (hxy : x ≤ y)
    (h : ∀ t ∈ medicareThresholds, t < x ∨ y ≤ t) :
    medicareSurcharge x = medicareSurcharge y := by
  have c : ∀ t ∈ medicareThresholds, (t < x ↔ t < y) := by
    intro t ht
    rcases h t ht with h' | h'
    · exact ⟨fun _ => lt_of_lt_of_le h' hxy, fun _ => h'⟩
    · constructor
      · intro hx
        exact absurd (lt_of_lt_of_le hx hxy) (not_lt.mpr h')
      · intro hy
        exact absurd hy (not_lt.mpr h')
  have c1 := c 103000 (by simp [medicareThresholds])
  have c2 := c 197000 (by simp [medicareThresholds])
  have c3 := c 296000 (by simp [medicareThresholds])
  have c4 := c 395000 (by simp [medicareThresholds])
  have c5 := c 500000 (by simp [medicareThresholds])
  simp only [medicareSurcharge, gt_iff_lt, c1, c2, c3, c4, c5]

/-- C6: for fixed age ≥ 65, `calculate_medicare_costs` is non-decreasing in
gross income; any income at or below one of the five IRMAA thresholds costs
strictly less than any income strictly above that threshold; and on any income
interval containing no threshold the cost is constant — so the strict jumps
happen exactly at the five thresholds, with mutually exclusive tiers selected
highest-threshold-first. -/
theorem medicare_monotone_and_jumps (age : ℕ) (h65 : 65 ≤ age) :
    (∀ x y : ℚ, x ≤ y → calculate_medicare_costs age x ≤ calculate_medicare_costs age y) ∧
    (∀ t ∈ medicareThresholds, ∀ x y : ℚ, x ≤ t → t < y →
      calculate_medicare_costs age x < calculate_medicare_costs age y) ∧
    (∀ x y : ℚ, x ≤ y → (∀ t ∈ medicareThresholds, t < x ∨ y ≤ t) →
      calculate_medicare_costs age x = calculate_medicare_costs age y) := by
  refine ⟨fun x y h => ?_, fun t ht x y hx hy => ?_, fun x y hxy h => ?_⟩
  · rw [medicare_costs_eq age h65, medicare_costs_eq age h65]
    have := medicareSurcharge_mono h
    linarith
  · rw [medicare_costs_eq age h65, medicare_costs_eq age h65]
    have := medicareSurcharge_jump ht hx hy
    linarith
  · rw [medicare_costs_eq age h65, medicare_costs_eq age h65,
      medicareSurcharge_const hxy h]

/-- C6 witness: at age 65 the cost jumps strictly across the first threshold. -/
theorem medicare_monotone_and_jumps_witness :
    calculate_medicare_costs 65 103000 < calculate_medicare_costs 65 103001 :=
  (medicare_monotone_and_jumps 65 (by decide)).2.1 103000 (by simp [medicareThresholds])
    103000 103001 le_rfl (by norm_num)

/-- C1 (amended): when the initial gap is strictly positive, the RMD floor does
not exceed the estimate the loop ends with, that estimate satisfies the $50
convergence test, and recomputing Medicare at the returned withdrawal leaves
the initial Medicare estimate unchanged, then the returned withdrawal plus
guaranteed income, net of the returned tax and Medicare, covers annual
expenses to within the $50 absolute tolerance. -/
theorem solver_covers_expenses_within_tolerance (exp p ss : ℚ) (age : ℕ) (fed st : ℚ)
    (inc : Bool) (bal : ℚ)
    (hgap : 0 < initialGap exp p ss age inc)
    (hrmd : calculate_rmd bal age ≤ convergedEstimate exp p ss age fed st inc)
    (hconv : |initialGap exp p ss age inc
        + loopTax p ss age fed st (convergedEstimate exp p ss age fed st inc)
        - convergedEstimate exp p ss age fed st inc| < 50)
    (hmed : (calculate_needed_withdrawal exp p ss age fed st inc bal).2.1
        = medicareEstimate0 exp p ss age inc) :
    |(calculate_needed_withdrawal exp p ss age fed st inc bal).1 + (p + ss)
      - (calculate_needed_withdrawal exp p ss age fed st inc bal).2.2
      - (calculate_needed_withdrawal exp p ss age fed st inc bal).2.1
      - exp| < 50 := by
  have hne : ¬ initialGap exp p ss age inc ≤ 0 := not_le.mpr hgap
  have hrmd' : calculate_rmd bal age
      ≤ solverLoop (initialGap exp p ss age inc) p ss age fed st 10
          (initialGap exp p ss age inc) := hrmd
  have h1 : (calculate_needed_withdrawal exp p ss age fed st inc bal).1
      = convergedEstimate exp p ss age fed st inc := by
    simp only [calculate_needed_withdrawal, convergedEstimate]
    rw [if_neg hne]
    exact max_eq_left hrmd'
  have h2 : (calculate_needed_withdrawal exp p ss age fed st inc bal).2.2
      = loopTax p ss age fed st (convergedEstimate exp p ss age fed st inc) := by
    simp only [calculate_needed_withdrawal, convergedEstimate, loopTax]
    rw [if_neg hne]
    rw [max_eq_left hrmd']
  rw [h1, h2, hmed]
  have key : convergedEstimate exp p ss age fed st inc + (p + ss)
      - loopTax p ss age fed st (convergedEstimate exp p ss age fed st inc)
      - medicareEstimate0 exp p ss age inc - exp
      = -(initialGap exp p ss age inc
          + loopTax p ss age fed st (convergedEstimate exp p ss age fed st inc)
          - convergedEstimate exp p ss age fed st inc) := by
    simp only [initialGap]
    ring
  rw [key, abs_neg]
  exact hconv

/-- C1 counterexample: with expenses 100000, no guaranteed income, age 65,
zero tax rates, Medicare included and zero balance, the initial gap is
positive and the RMD floor (0) does not exceed the loop estimate, yet the
returned triple misses the expenses by far more than $50: the final Medicare
recomputation lands in a higher IRMAA tier than the initial estimate the loop
converged against. -/
theorem solver_tolerance_counterexample :
    0 < initialGap 100000 0 0 65 true ∧
    calculate_rmd 0 65 ≤ convergedEstimate 100000 0 0 65 0 0 true ∧
    ¬ (|(calculate_needed_withdrawal 100000 0 0 65 0 0 true 0).1 + (0 + 0)
      - (calculate_needed_withdrawal 100000 0 0 65 0 0 true 0).2.2
      - (calculate_needed_withdrawal 100000 0 0 65 0 0 true 0).2.1
      - 100000| < 50) := by decide

/-- C1 witness: the amended statement instantiated with expenses 50000,
pension 10000, SS 10000, age 60, rates 10/5, Medicare excluded, balance
100000 (the loop converges after four iterations). -/
theorem solver_covers_expenses_within_tolerance_witness :
    0 < initialGap 50000 10000 10000 60 false ∧
    |(calculate_needed_withdrawal 50000 10000 10000 60 10 5 false 100000).1 + (10000 + 10000)
      - (calculate_needed_withdrawal 50000 10000 10000 60 10 5 false 100000).2.2
      - (calculate_needed_withdrawal 50000 10000 10000 60 10 5 false 100000).2.1
      - 50000| < 50 :=
  ⟨by decide,
   solver_covers_expenses_within_tolerance 50000 10000 10000 60 10 5 false 100000
     (by decide) (by decide) (by decide) (by decide)⟩

/-- C4: whenever the RMD is strictly larger than the need-based estimate —
either in the gap ≤ 0 branch (with RMD > 0) or in the gap > 0 branch after the
iteration — the solver returns exactly the RMD as the withdrawal. -/
theorem rmd_floor_forces_withdrawal (exp p ss : ℚ) (age : ℕ) (fed st : ℚ) (inc : Bool)
    (bal : ℚ) :
    (initialGap exp p ss age inc ≤ 0 → calculate_rmd bal age > 0 →
      (calculate_needed_withdrawal exp p ss age fed st inc bal).1 = calculate_rmd bal age) ∧
    (0 < initialGap exp p ss age inc →
      convergedEstimate exp p ss age fed st inc < calculate_rmd bal age →
      (calculate_needed_withdrawal exp p ss age fed st inc bal).1 = calculate_rmd bal age) := by
  constructor
  · intro hgap hrmd
    simp only [calculate_needed_withdrawal]
    rw [if_pos hgap, if_pos hrmd]
  · intro hgap hrmd
    have hne : ¬ initialGap exp p ss age inc ≤ 0 := not_le.mpr hgap
    simp only [convergedEstimate] at hrmd
    simp only [calculate_needed_withdrawal]
    rw [if_neg hne]
    exact max_eq_right (le_of_lt hrmd)

/-- C4 witness: zero expenses, pension 1000, age 75, balance 24600 — the gap
is negative and the RMD (1000) forces the returned withdrawal. -/
theorem rmd_floor_forces_withdrawal_witness :
    (calculate_needed_withdrawal 0 1000 0 75 10 5 false 24600).1 = calculate_rmd 24600 75 :=
  (rmd_floor_forces_withdrawal 0 1000 0 75 10 5 false 24600).1 (by decide) (by decide)

/-- The schedule never records more rows than it has years of fuel. -/
theorem amortAux_length (p : AmortParams) : ∀ (n year : ℕ) (s : AmortState),
    (amortAux p n year s).length ≤ n := by
  intro n
  induction n with
  | zero =>
    intro year s
    simp [amortAux]
  | succ n ih =>
    intro year s
    simp only [amortAux]
    split
    · simp
    · simp only [List.length_cons]
      exact Nat.succ_le_succ (ih _ _)

/-- Every recorded row is the entry of `amortYear` at some year ≥ the starting
year, for a state whose total balance is strictly positive. -/
theorem amortAux_mem (p : AmortParams) : ∀ (n year : ℕ) (s : AmortState) (e : YearEntry),
    e ∈ amortAux p n year s →
    ∃ (y : ℕ) (s' : AmortState), year ≤ y ∧ 0 < totalBalance s' ∧ e = (amortYear p y s').1 := by
  intro n
  induction n with
  | zero =>
    intro year s e he
    simp [amortAux] at he
  | succ n ih =>
    intro year s e he
    simp only [amortAux] at he
    by_cases hb : totalBalance s ≤ 0
    · rw [if_pos hb] at he
      simp at he
    · rw [if_neg hb] at he
      rcases List.mem_cons.mp he with h1 | h2
      · exact ⟨year, s, le_rfl, not_le.mp hb, h1⟩
      · rcases ih (year + 1) _ e h2 with ⟨y, s', hy, hbs, he'⟩
        exact ⟨y, s', by omega, hbs, he'⟩

/-- Rows of the schedule are strictly increasing in age. -/
theorem amortAux_pairwise (p : AmortParams) : ∀ (n year : ℕ) (s : AmortState), 1 ≤ year →
    (amortAux p n year s).Pairwise (fun a b => a.age < b.age) := by
  intro n
  induction n with
  | zero =>
    intro year s _
    simp [amortAux]
  | succ n ih =>
    intro year s hy
    simp only [amortAux]
    split
    · exact List.Pairwise.nil
    · refine List.pairwise_cons.mpr ⟨?_, ih (year + 1) _ (by omega)⟩
      intro b hb
      rcases amortAux_mem p n (year + 1) _ b hb with ⟨y, s', hy', _, rfl⟩
      have h1 : (amortYear p year s).1.age = p.retirement_age + year - 1 := rfl
      have h2 : (amortYear p y s').1.age = p.retirement_age + y - 1 := rfl
      rw [h1, h2]
      omega

/-- The recorded end-of-year total is a sum of four `max 0 _` terms, hence
never negative. -/
theorem amortYear_total_end_nonneg (p : AmortParams) (year : ℕ) (s : AmortState) :
    0 ≤ ((amortYear p year s).1).total_end := by
  simp only [amortYear]
  refine add_nonneg (add_nonneg (add_nonneg ?_ ?_) ?_) ?_ <;> exact le_max_left 0 _

/-- C3: with at least one simulated year and positive starting total balance,
the ledger is non-empty, strictly increasing in age, no longer than the
configured horizon, and every recorded end-of-year total balance is ≥ 0. -/
theorem amortization_ledger_invariants (s401k strad sroth stax return_rate pension_income
    ss_income : ℚ) (retirement_age : ℕ) (federal_rate state_rate inflation_rate : ℚ)
    (include_medicare : Bool) (monthly_expenses : ℚ) (years : ℕ)
    (hy : 1 ≤ years) (hb : 0 < s401k + strad + sroth + stax) :
    generate_amortization_schedule s401k strad sroth stax return_rate pension_income ss_income
        retirement_age federal_rate state_rate inflation_rate include_medicare monthly_expenses
        years ≠ [] ∧
    (generate_amortization_schedule s401k strad sroth stax return_rate pension_income ss_income
        retirement_age federal_rate state_rate inflation_rate include_medicare monthly_expenses
        years).Pairwise (fun a b => a.age < b.age) ∧
    (generate_amortization_schedule s401k strad sroth stax return_rate pension_income ss_income
        retirement_age federal_rate state_rate inflation_rate include_medicare monthly_expenses
        years).length ≤ years ∧
    ∀ e ∈ generate_amortization_schedule s401k strad sroth stax return_rate pension_income
        ss_income retirement_age federal_rate state_rate inflation_rate include_medicare
        monthly_expenses years, 0 ≤ e.total_end := by
  refine ⟨?_, ?_, ?_, ?_⟩
  · obtain ⟨m, rfl⟩ : ∃ m, years = m + 1 := ⟨years - 1, by omega⟩
    simp only [generate_amortization_schedule, amortAux]
    rw [if_neg (by simp only [totalBalance]; exact not_le.mpr hb)]
    exact List.cons_ne_nil _ _
  · exact amortAux_pairwise _ years 1 _ le_rfl
  · exact amortAux_length _ years 1 _
  · intro e he
    rcases amortAux_mem _ years 1 _ e he with ⟨y, s', _, _, rfl⟩
    exact amortYear_total_end_nonneg _ y s'

/-- C3 witness: the invariants instantiated at a concrete three-year run with
starting balance 1000. -/
theorem amortization_ledger_invariants_witness :
    generate_amortization_schedule 1000 0 0 0 5 100 100 65 10 5 2 true 500 3 ≠ [] :=
  (amortization_ledger_invariants 1000 0 0 0 5 100 100 65 10 5 2 true 500 3
    (by decide) (by norm_num)).1

/-- For a state with positive total balance, each capped per-account
withdrawal is at most that account's balance plus growth, and the four capped
withdrawals together never exceed the solver's needed withdrawal (the
uncapped allocations sum exactly to it). -/
theorem cappedWithdrawals_bounds (p : AmortParams) (y : ℕ) (s : AmortState)
    (h : totalBalance s > 0) :
    (cappedWithdrawals p y s).1 ≤ s.balance_401k + s.balance_401k * (p.return_rate / 100) ∧
    (cappedWithdrawals p y s).2.1
      ≤ s.balance_trad_ira + s.balance_trad_ira * (p.return_rate / 100) ∧
    (cappedWithdrawals p y s).2.2.1
      ≤ s.balance_roth_ira + s.balance_roth_ira * (p.return_rate / 100) ∧
    (cappedWithdrawals p y s).2.2.2
      ≤ s.balance_taxable + s.balance_taxable * (p.return_rate / 100) ∧
    (cappedWithdrawals p y s).1 + (cappedWithdrawals p y s).2.1
        + (cappedWithdrawals p y s).2.2.1 + (cappedWithdrawals p y s).2.2.2
      ≤ (calculate_needed_withdrawal s.annual_expenses s.adjusted_pension s.adjusted_ss
          (p.retirement_age + y - 1) p.federal_rate p.state_rate p.include_medicare
          (totalBalance s)).1 := by
  have hT : totalBalance s ≠ 0 := ne_of_gt h
  refine ⟨min_le_right _ _, min_le_right _ _, min_le_right _ _, min_le_right _ _, ?_⟩
  have e1 : cappedWithdrawals p y s
      = (min ((calculate_needed_withdrawal s.annual_expenses s.adjusted_pension s.adjusted_ss
            (p.retirement_age + y - 1) p.federal_rate p.state_rate p.include_medicare
            (totalBalance s)).1 * (s.balance_401k / totalBalance s))
          (s.balance_401k + s.balance_401k * (p.return_rate / 100)),
         min ((calculate_needed_withdrawal s.annual_expenses s.adjusted_pension s.adjusted_ss
            (p.retirement_age + y - 1) p.federal_rate p.state_rate p.include_medicare
            (totalBalance s)).1 * (s.balance_trad_ira / totalBalance s))
          (s.balance_trad_ira + s.balance_trad_ira * (p.return_rate / 100)),
         min ((calculate_needed_withdrawal s.annual_expenses s.adjusted_pension s.adjusted_ss
            (p.retirement_age + y - 1) p.federal_rate p.state_rate p.include_medicare
            (totalBalance s)).1 * (s.balance_roth_ira / totalBalance s))
          (s.balance_roth_ira + s.balance_roth_ira * (p.return_rate / 100)),
         min ((calculate_needed_withdrawal s.annual_expenses s.adjusted_pension s.adjusted_ss
            (p.retirement_age + y - 1) p.federal_rate p.state_rate p.include_medicare
            (totalBalance s)).1 * (s.balance_taxable / totalBalance s))
          (s.balance_taxable + s.balance_taxable * (p.return_rate / 100))) := by
    simp only [cappedWithdrawals]
    rw [if_pos h, if_pos h, if_pos h, if_pos h]
  rw [e1]
  have hsum : ∀ W : ℚ, W * (s.balance_401k / totalBalance s)
      + W * (s.balance_trad_ira / totalBalance s) + W * (s.balance_roth_ira / totalBalance s)
      + W * (s.balance_taxable / totalBalance s) = W := by
    intro W
    have hT' : s.balance_401k + s.balance_trad_ira + s.balance_roth_ira
        + s.balance_taxable ≠ 0 := by
      simpa only [totalBalance] using hT
    simp only [totalBalance]
    field_simp
    ring
  calc min _ _ + min _ _ + min _ _ + min _ _
      ≤ _ * (s.balance_401k / totalBalance s) + _ * (s.balance_trad_ira / totalBalance s)
        + _ * (s.balance_roth_ira / totalBalance s) + _ * (s.balance_taxable / totalBalance s) :=
        add_le_add (add_le_add (add_le_add (min_le_left _ _) (min_le_left _ _))
          (min_le_left _ _)) (min_le_left _ _)
    _ = _ := hsum _

/-- C5: every recorded ledger row arises from a year state with positive total
balance; its gross income is the sum of the four capped per-account
withdrawals plus that year's inflation-adjusted pension and Social Security,
and its taxes and Medicare are the values the solver returned for the needed
(uncapped) withdrawal, with net income = gross − taxes − Medicare. -/
theorem ledger_income_fields (s401k strad sroth stax return_rate pension_income
    ss_income : ℚ) (retirement_age : ℕ) (federal_rate state_rate inflation_rate : ℚ)
    (include_medicare : Bool) (monthly_expenses : ℚ) (years : ℕ) :
    ∀ e ∈ generate_amortization_schedule s401k strad sroth stax return_rate pension_income
        ss_income retirement_age federal_rate state_rate inflation_rate include_medicare
        monthly_expenses years,
    ∃ (y : ℕ) (s : AmortState),
      0 < totalBalance s ∧
      e = (amortYear ⟨return_rate, federal_rate, state_rate, inflation_rate,
            include_medicare, retirement_age⟩ y s).1 ∧
      e.gross_income
        = ((cappedWithdrawals ⟨return_rate, federal_rate, state_rate, inflation_rate,
              include_medicare, retirement_age⟩ y s).1
          + (cappedWithdrawals ⟨return_rate, federal_rate, state_rate, inflation_rate,
              include_medicare, retirement_age⟩ y s).2.1
          + (cappedWithdrawals ⟨return_rate, federal_rate, state_rate, inflation_rate,
              include_medicare, retirement_age⟩ y s).2.2.1
          + (cappedWithdrawals ⟨return_rate, federal_rate, state_rate, inflation_rate,
              include_medicare, retirement_age⟩ y s).2.2.2)
          + s.adjusted_pension + s.adjusted_ss ∧
      e.taxes = (calculate_needed_withdrawal s.annual_expenses s.adjusted_pension
          s.adjusted_ss (retirement_age + y - 1) federal_rate state_rate include_medicare
          (totalBalance s)).2.2 ∧
      e.medicare = (calculate_needed_withdrawal s.annual_expenses s.adjusted_pension
          s.adjusted_ss (retirement_age + y - 1) federal_rate state_rate include_medicare
          (totalBalance s)).2.1 ∧
      e.net_income = e.gross_income - e.taxes - e.medicare := by
  intro e he
  rcases amortAux_mem _ years 1 _ e he with ⟨y, s, _, hbs, rfl⟩
  exact ⟨y, s, hbs, rfl, rfl, rfl, rfl, rfl⟩

/-- C5 witness: the field equations instantiated on the single row of a
concrete one-year schedule. -/
theorem ledger_income_fields_witness :
    ∃ (y : ℕ) (s : AmortState),
      0 < totalBalance s ∧
      (amortYear ⟨0, 0, 0, 0, false, 70⟩ 1 ⟨100, 0, 0, 0, 0, 0, 120⟩).1
        = (amortYear ⟨0, 0, 0, 0, false, 70⟩ y s).1 ∧
      (amortYear ⟨0, 0, 0, 0, false, 70⟩ 1 ⟨100, 0, 0, 0, 0, 0, 120⟩).1.gross_income
        = ((cappedWithdrawals ⟨0, 0, 0, 0, false, 70⟩ y s).1
          + (cappedWithdrawals ⟨0, 0, 0, 0, false, 70⟩ y s).2.1
          + (cappedWithdrawals ⟨0, 0, 0, 0, false, 70⟩ y s).2.2.1
          + (cappedWithdrawals ⟨0, 0, 0, 0, false, 70⟩ y s).2.2.2)
          + s.adjusted_pension + s.adjusted_ss ∧
      (amortYear ⟨0, 0, 0, 0, false, 70⟩ 1 ⟨100, 0, 0, 0, 0, 0, 120⟩).1.taxes
        = (calculate_needed_withdrawal s.annual_expenses s.adjusted_pension s.adjusted_ss
            (70 + y - 1) 0 0 false (totalBalance s)).2.2 ∧
      (amortYear ⟨0, 0, 0, 0, false, 70⟩ 1 ⟨100, 0, 0, 0, 0, 0, 120⟩).1.medicare
        = (calculate_needed_withdrawal s.annual_expenses s.adjusted_pension s.adjusted_ss
            (70 + y - 1) 0 0 false (totalBalance s)).2.1 ∧
      (amortYear ⟨0, 0, 0, 0, false, 70⟩ 1 ⟨100, 0, 0, 0, 0, 0, 120⟩).1.net_income
        = (amortYear ⟨0, 0, 0, 0, false, 70⟩ 1 ⟨100, 0, 0, 0, 0, 0, 120⟩).1.gross_income
          - (amortYear ⟨0, 0, 0, 0, false, 70⟩ 1 ⟨100, 0, 0, 0, 0, 0, 120⟩).1.taxes
          - (amortYear ⟨0, 0, 0, 0, false, 70⟩ 1 ⟨100, 0, 0, 0, 0, 0, 120⟩).1.medicare :=
  ledger_income_fields 100 0 0 0 0 0 0 70 0 0 0 false 10 1 _ (by decide)

/-- C10: in every simulated year, after the proportional allocation, each
capped per-account withdrawal is at most that account's balance plus its
growth, and the total actually withdrawn is at most the solver's needed
withdrawal for that year. -/
theorem withdrawals_capped_by_balance_and_need (s401k strad sroth stax return_rate
    pension_income ss_income : ℚ) (retirement_age : ℕ)
    (federal_rate state_rate inflation_rate : ℚ) (include_medicare : Bool)
    (monthly_expenses : ℚ) (years : ℕ) :
    ∀ e ∈ generate_amortization_schedule s401k strad sroth stax return_rate pension_income
        ss_income retirement_age federal_rate state_rate inflation_rate include_medicare
        monthly_expenses years,
    ∃ (y : ℕ) (s : AmortState),
      0 < totalBalance s ∧
      e = (amortYear ⟨return_rate, federal_rate, state_rate, inflation_rate,
            include_medicare, retirement_age⟩ y s).1 ∧
      (cappedWithdrawals ⟨return_rate, federal_rate, state_rate, inflation_rate,
          include_medicare, retirement_age⟩ y s).1
        ≤ s.balance_401k + s.balance_401k * (return_rate / 100) ∧
      (cappedWithdrawals ⟨return_rate, federal_rate, state_rate, inflation_rate,
          include_medicare, retirement_age⟩ y s).2.1
        ≤ s.balance_trad_ira + s.balance_trad_ira * (return_rate / 100) ∧
      (cappedWithdrawals ⟨return_rate, federal_rate, state_rate, inflation_rate,
          include_medicare, retirement_age⟩ y s).2.2.1
        ≤ s.balance_roth_ira + s.balance_roth_ira * (return_rate / 100) ∧
      (cappedWithdrawals ⟨return_rate, federal_rate, state_rate, inflation_rate,
          include_medicare, retirement_age⟩ y s).2.2.2
        ≤ s.balance_taxable + s.balance_taxable * (return_rate / 100) ∧
      (cappedWithdrawals ⟨return_rate, federal_rate, state_rate, inflation_rate,
          include_medicare, retirement_age⟩ y s).1
        + (cappedWithdrawals ⟨return_rate, federal_rate, state_rate, inflation_rate,
            include_medicare, retirement_age⟩ y s).2.1
        + (cappedWithdrawals ⟨return_rate, federal_rate, state_rate, inflation_rate,
            include_medicare, retirement_age⟩ y s).2.2.1
        + (cappedWithdrawals ⟨return_rate, federal_rate, state_rate, inflation_rate,
            include_medicare, retirement_age⟩ y s).2.2.2
        ≤ (calculate_needed_withdrawal s.annual_expenses s.adjusted_pension s.adjusted_ss
            (retirement_age + y - 1) federal_rate state_rate include_medicare
            (totalBalance s)).1 := by
  intro e he
  rcases amortAux_mem _ years 1 _ e he with ⟨y, s, _, hbs, rfl⟩
  obtain ⟨h1, h2, h3, h4, h5⟩ := cappedWithdrawals_bounds
    ⟨return_rate, federal_rate, state_rate, inflation_rate, include_medicare, retirement_age⟩
    y s hbs
  exact ⟨y, s, hbs, rfl, h1, h2, h3, h4, h5⟩

/-- C10 witness: the bounds instantiated on the single row of a concrete
one-year schedule. -/
theorem withdrawals_capped_by_balance_and_need_witness :
    ∃ (y : ℕ) (s : AmortState),
      0 < totalBalance s ∧
      (amortYear ⟨0, 0, 0, 0, false, 70⟩ 1 ⟨100, 0, 0, 0, 0, 0, 120⟩).1
        = (amortYear ⟨0, 0, 0, 0, false, 70⟩ y s).1 ∧
      (cappedWithdrawals ⟨0, 0, 0, 0, false, 70⟩ y s).1
        ≤ s.balance_401k + s.balance_401k * (0 / 100) ∧
      (cappedWithdrawals ⟨0, 0, 0, 0, false, 70⟩ y s).2.1
        ≤ s.balance_trad_ira + s.balance_trad_ira * (0 / 100) ∧
      (cappedWithdrawals ⟨0, 0, 0, 0, false, 70⟩ y s).2.2.1
        ≤ s.balance_roth_ira + s.balance_roth_ira * (0 / 100) ∧
      (cappedWithdrawals ⟨0, 0, 0, 0, false, 70⟩ y s).2.2.2
        ≤ s.balance_taxable + s.balance_taxable * (0 / 100) ∧
      (cappedWithdrawals ⟨0, 0, 0, 0, false, 70⟩ y s).1
        + (cappedWithdrawals ⟨0, 0, 0, 0, false, 70⟩ y s).2.1
        + (cappedWithdrawals ⟨0, 0, 0, 0, false, 70⟩ y s).2.2.1
        + (cappedWithdrawals ⟨0, 0, 0, 0, false, 70⟩ y s).2.2.2
        ≤ (calculate_needed_withdrawal s.annual_expenses s.adjusted_pension s.adjusted_ss
            (70 + y - 1) 0 0 false (totalBalance s)).1 :=
  withdrawals_capped_by_balance_and_need 100 0 0 0 0 0 0 70 0 0 0 false 10 1 _ (by decide)
